import Mathlib

set_option maxRecDepth 100000

/-!
Verification of the ScriptSmith rust-executor service
(src/services/rust-executor/src/main.rs) against its specification.

The service is embedded shallowly:

* Pure computations (timeout resolution, size guard, harness templating,
  status mapping, message formatting, trimming) are translated directly
  into Lean functions, keeping the names of the source where possible.
* Effectful steps (temp-directory creation, file writes, the two
  subprocess awaits) are modelled by an environment record that supplies
  the outcome of each step; the pipeline is a function of that record.
* Machine integers (u64 timeouts, u32 limits, usize lengths) fit far
  below their overflow bounds here, so they are modelled by Nat.
  The f64 size arithmetic divides a byte count by 1024 and compares with
  a small constant; both operations are exact in f64 for any realistic
  length, so the embedding uses exact rationals.
* Wall-clock durations are rationals (seconds).  The tokio timeout wrapper
  polls the wrapped future first, so an immediate launch/spawn error wins
  over the deadline; a process that runs to completion wins exactly when
  its duration is below the budget (at the measure-zero boundary the
  model resolves in favour of the deadline).
-/

/-! ### Strings: substring search and trimming

Rust str::contains with a str pattern is plain substring search, and
str::trim removes whitespace from both ends.  Both are modelled on the
underlying character lists.  (Rust char::is_whitespace is Unicode
White_Space; Char.isWhitespace covers the ASCII core of it, which is all
the harness and the claims exercise.) -/

/-- Does the pattern occur as a prefix of the list? -/
def prefixMatch : List Char → List Char → Bool
  | [], _ => true
  | _ :: _, [] => false
  | c :: cs, d :: ds => c == d && prefixMatch cs ds

/-- Does the pattern occur as a substring of the list? -/
def subMatch (pat : List Char) : List Char → Bool
  | [] => prefixMatch pat []
  | c :: cs => prefixMatch pat (c :: cs) || subMatch pat cs

/-- Model of Rust str::contains (substring search). -/
def containsStr (s pat : String) : Bool := subMatch pat.data s.data

/-- Model of Rust str::trim on character lists: drop whitespace from the
front, then from the back. -/
def trimChars (l : List Char) : List Char :=
  ((l.dropWhile Char.isWhitespace).reverse.dropWhile Char.isWhitespace).reverse

/-- Model of Rust str::trim. -/
def trimStr (s : String) : String := ⟨trimChars s.data⟩

/-! ### Configuration (RustExecutor::new) -/

structure RustExecutor where
  max_execution_time : Nat
  max_memory_mb : Nat
  max_code_size_kb : Nat

/-- RustExecutor::new in main.rs: default timeout 30s, 128MB declared,
50KB code ceiling. -/
def RustExecutor.new : RustExecutor :=
  { max_execution_time := 30, max_memory_mb := 128, max_code_size_kb := 50 }

/-! ### Response shapes -/

structure CodeExecutionResponse where
  output : String
  error : String
  execution_time : ℚ
  status : String
deriving DecidableEq

structure CodeValidationResponse where
  is_valid : Bool
  errors : List String
  warnings : List String
deriving DecidableEq

/-! ### Timeout resolution (execute_code, lines 64-66)

The source computes
timeout_override.filter(t <= 60).unwrap_or(self.max_execution_time);
the match below is that expression unfolded. -/

def resolveTimeout (ex : RustExecutor) (timeout_override : Option Nat) : Nat :=
  match timeout_override with
  | some t => if t ≤ 60 then t else ex.max_execution_time
  | none => ex.max_execution_time

/-! ### Size guard arithmetic (execute_code, lines 68-80)

code.len() as f64 / 1024.0 is exact in f64 for any length below 2^53,
so the rational value is the faithful model.  The one-decimal rendering
of the f64 in the error message rounds to nearest with ties to even,
which is what the Rust fixed-precision float formatting produces for the
exactly-represented quotient. -/

def codeSizeKB (code : String) : ℚ := (code.utf8ByteSize : ℚ) / 1024

/-- One-decimal fixed-point rendering of bytes/1024, ties to even. -/
def fmtSizeKB (bytes : Nat) : String :=
  let n10 := bytes * 10
  let q := n10 / 1024
  let r := n10 % 1024
  let t := if 512 < r then q + 1 else if r < 512 then q else if q % 2 = 0 then q else q + 1
  toString (t / 10) ++ "." ++ toString (t % 10)

/-! ### Harness templating (create_restricted_code, lines 161-222)

The two format! templates, written out literally.  Brace characters of
the generated Rust source are written with hexadecimal escapes. -/

/-- The import header both branches of create_restricted_code prefix
(the first six lines of both templates, ending in a blank line). -/
def execHeader : String :=
  "use std::io;\nuse std::io::prelude::*;\nuse std::collections::\x7bHashMap, HashSet, BTreeMap, BTreeSet, VecDeque\x7d;\nuse std::time::\x7bDuration, Instant\x7d;\nuse std::thread;\n\n"

/-- Bare-snippet template, part before the spliced timeout literal. -/
def harnessPre : String :=
  "fn main() \x7b\n    // Set execution timeout\n    let start_time = Instant::now();\n    let timeout = Duration::from_secs("

/-- Bare-snippet template, between the timeout literal and the user code:
the watchdog thread and the opening of the panic boundary. -/
def harnessMid : String :=
  ");\n    \n    // Spawn timeout checker\n    let timeout_checker = thread::spawn(move || \x7b\n        thread::sleep(timeout);\n        eprintln!(\"TIMEOUT: Code execution exceeded time limit\");\n        std::process::exit(124);\n    \x7d);\n    \n    // User code wrapper\n    let result = std::panic::catch_unwind(|| \x7b\n        // User code starts here\n"

/-- Bare-snippet template, after the user code: closing the panic
boundary and converting a caught panic into an error message plus
exit code 1. -/
def harnessSuf : String :=
  "\n    \x7d);\n    \n    match result \x7b\n        Ok(_) => \x7b\n            // Success - try to kill timeout checker gracefully\n            // Note: We can\x27t actually kill the thread, but process will exit normally\n        \x7d\n        Err(e) => \x7b\n            if let Some(s) = e.downcast_ref::<&str>() \x7b\n                eprintln!(\"Error: \x7b\x7d\", s);\n            \x7d else if let Some(s) = e.downcast_ref::<String>() \x7b\n                eprintln!(\"Error: \x7b\x7d\", s);\n            \x7d else \x7b\n                eprintln!(\"Error: panic occurred\");\n            \x7d\n            std::process::exit(1);\n        \x7d\n    \x7d\n\x7d"

/-- create_restricted_code: if the snippet contains the entry-point
marker, only the import header is prefixed; otherwise the snippet is
embedded in the generated entry point with watchdog and panic boundary,
with the resolved timeout spliced into Duration::from_secs. -/
def create_restricted_code (user_code : String) (timeout_seconds : Nat) : String :=
  if containsStr user_code "fn main()" then
    execHeader ++ user_code
  else
    execHeader ++ harnessPre ++ toString timeout_seconds ++ harnessMid ++ user_code ++ harnessSuf

/-! ### Validation templating (validate_syntax_check, lines 372-392) -/

/-- The import header of the validation wrapping (two use lines and a
blank line). -/
def valHeader : String :=
  "use std::io;\nuse std::collections::\x7bHashMap, HashSet, BTreeMap, BTreeSet\x7d;\n\n"

/-- Opening of the plain generated entry point of the validation
wrapping. -/
def valMainOpen : String := "fn main() \x7b\n"

/-- Closing of the plain generated entry point of the validation
wrapping. -/
def valMainClose : String := "\n\x7d"

/-- The full_code built by validate_syntax_check before writing main.rs. -/
def validationUnit (code : String) : String :=
  if containsStr code "fn main()" then
    valHeader ++ code
  else
    valHeader ++ valMainOpen ++ code ++ valMainClose

/-- Claim C9 reads the validation unit as the bare-snippet harness of
the execution stage with only the watchdog and failure-boundary
generation removed; this definition follows those words (same import
header as the execution harness, plain entry point around the
snippet). -/
def execHarnessSansWatchdog (code : String) : String :=
  execHeader ++ valMainOpen ++ code ++ valMainClose

/-- Is every line of the string either blank or a std import line?
(Used to state that a templater header prefixes only standard-library
imports.) -/
def splitOnNl (l : List Char) : List (List Char) :=
  l.foldr
    (fun c acc =>
      match acc with
      | line :: rest => if c = '\n' then [] :: line :: rest else (c :: line) :: rest
      | [] => [[c]])
    [[]]

def onlyStdImports (s : String) : Bool :=
  (splitOnNl s.data).all fun line => line.isEmpty || prefixMatch "use std::".data line

/-! ### Subprocess model -/

/-- What a subprocess that actually ran to completion produced:
ExitStatus::code() (none models signal termination), the captured
streams, and how long it took (wall-clock seconds). -/
structure ProcessOutput where
  exitCode : Option Int
  stdout : String
  stderr : String
  duration : ℚ
deriving DecidableEq

/-- ExitStatus::success(). -/
def ProcessOutput.success (p : ProcessOutput) : Bool := decide (p.exitCode = some 0)

/-- Result of tokio::time::timeout wrapped around a subprocess future:
either the future resolved to a launch/IO error at once, or the process
completed, or the budget elapsed first.  The wrapper polls the future
before the deadline, so an immediate error always wins; a completed
process wins exactly when its duration is below the budget. -/
inductive Awaited (ε : Type) where
  | output (out : ProcessOutput)
  | ioError (e : ε)
  | elapsed
deriving DecidableEq

def awaitTimeout {ε : Type} (budget : ℚ) (fut : Except ε ProcessOutput) : Awaited ε :=
  match fut with
  | .error e => .ioError e
  | .ok out => if out.duration < budget then .output out else .elapsed

deriving instance DecidableEq for Except

/-- The two error strings the run-stage async block can produce
(lines 286 and 298), with their untouched payloads. -/
inductive SpawnErr where
  | spawnFailed (msg : String)
  | processError (msg : String)
deriving DecidableEq

def spawnErrMsg : SpawnErr → String
  | .spawnFailed m => "Failed to spawn process: " ++ m
  | .processError m => "Process error: " ++ m

/-- Environment of compile_and_run: what cargo build would do, and what
the compiled artifact would do (stdin piping only influences the
behaviour of the artifact, which the environment already supplies). -/
structure RunEnv where
  compileFut : Except String ProcessOutput
  runFut : Except SpawnErr ProcessOutput
deriving DecidableEq

/-- The run phase of compile_and_run (lines 270-327): the artifact under
the resolved caller budget, trimming of the captured streams, and the
status mapping on the exit code. -/
def runStage (runFut : Except SpawnErr ProcessOutput) (timeout_seconds : Nat) :
    String × String × String :=
  match awaitTimeout (timeout_seconds : ℚ) runFut with
  | .ioError e => ("", spawnErrMsg e, "error")
  | .elapsed =>
      ("", "Code execution timed out after " ++ toString timeout_seconds ++ " seconds",
        "timeout")
  | .output run_result =>
      (trimStr run_result.stdout, trimStr run_result.stderr,
        if run_result.success then "success"
        else if run_result.exitCode = some 124 then "timeout"
        else "error")

/-- compile_and_run (lines 224-328): cargo build under a fixed 30-second
budget, then the run phase.  Returns (stdout, stderr/message, status). -/
def compile_and_run (env : RunEnv) (timeout_seconds : Nat) : String × String × String :=
  match awaitTimeout (30 : ℚ) env.compileFut with
  | .ioError e => ("", "Failed to execute cargo build: " ++ e, "error")
  | .elapsed => ("", "Compilation timed out", "error")
  | .output compile_result =>
      if compile_result.success then runStage env.runFut timeout_seconds
      else ("", "Compilation error: " ++ compile_result.stderr, "error")

/-! ### execute_code (lines 58-159) -/

/-- Outcomes of the effectful steps of execute_code, in pipeline order:
TempDir::new, create_dir_all(src), write(Cargo.toml), write(main.rs),
then the two subprocesses; elapsed is start_time.elapsed() at whichever
return is taken. -/
structure ExecEnv where
  tempDir : Except String Unit
  srcDir : Except String Unit
  cargoToml : Except String Unit
  mainRs : Except String Unit
  run : RunEnv
  elapsed : ℚ
deriving DecidableEq

/-- The response together with whether a Workspace (temporary directory)
was created for the request. -/
structure ExecOutcome where
  response : CodeExecutionResponse
  workspaceCreated : Bool
deriving DecidableEq

/-- execute_code: size guard, workspace materialization (the content
written to main.rs is create_restricted_code code execution_timeout),
then compile_and_run under the resolved timeout. -/
def execute_code (ex : RustExecutor) (code : String) (_input_data : Option String)
    (timeout_override : Option Nat) (env : ExecEnv) : ExecOutcome :=
  let execution_timeout := resolveTimeout ex timeout_override
  if codeSizeKB code > (ex.max_code_size_kb : ℚ) then
    { response :=
        { output := ""
          error := "Code size (" ++ fmtSizeKB code.utf8ByteSize ++
            "KB) exceeds maximum allowed size (" ++ toString ex.max_code_size_kb ++ "KB)"
          execution_time := 0
          status := "error" }
      workspaceCreated := false }
  else
    match env.tempDir with
    | .error e =>
        ⟨⟨"", "Failed to create temp directory: " ++ e, env.elapsed, "error"⟩, false⟩
    | .ok _ =>
      match env.srcDir with
      | .error e =>
          ⟨⟨"", "Failed to create src directory: " ++ e, env.elapsed, "error"⟩, true⟩
      | .ok _ =>
        match env.cargoToml with
        | .error e =>
            ⟨⟨"", "Failed to create Cargo.toml: " ++ e, env.elapsed, "error"⟩, true⟩
        | .ok _ =>
          match env.mainRs with
          | .error e =>
              ⟨⟨"", "Failed to write main.rs: " ++ e, env.elapsed, "error"⟩, true⟩
          | .ok _ =>
            let result := compile_and_run env.run execution_timeout
            ⟨⟨result.1, result.2.1, env.elapsed, result.2.2⟩, true⟩

/-! ### The validation endpoint (main.rs lines 330-445) -/

structure ValidateEnv where
  tempDir : Except String Unit
  srcDir : Except String Unit
  cargoToml : Except String Unit
  mainRs : Except String Unit
  check : Except String ProcessOutput
deriving DecidableEq

/-- The syntax-validation handler of main.rs: workspace steps (the
content written to main.rs is validationUnit code), then cargo check
under a 10-second budget. -/
def validate_syntax_check (env : ValidateEnv) (_code : String) : CodeValidationResponse :=
  match env.tempDir with
  | .error e => ⟨false, ["Failed to create temp directory: " ++ e], []⟩
  | .ok _ =>
    match env.srcDir with
    | .error e => ⟨false, ["Failed to create src directory: " ++ e], []⟩
    | .ok _ =>
      match env.cargoToml with
      | .error e => ⟨false, ["Failed to create Cargo.toml: " ++ e], []⟩
      | .ok _ =>
        match env.mainRs with
        | .error e => ⟨false, ["Failed to write main.rs: " ++ e], []⟩
        | .ok _ =>
          match awaitTimeout (10 : ℚ) env.check with
          | .ioError e => ⟨false, ["Failed to execute cargo check: " ++ e], []⟩
          | .elapsed => ⟨false, ["Syntax check timed out"], []⟩
          | .output check_result =>
            if check_result.success then ⟨true, [], []⟩
            else ⟨false, [check_result.stderr], []⟩

/-! ### Helper lemmas -/

lemma data_append (a b : String) : (a ++ b).data = a.data ++ b.data := rfl

lemma str_append_assoc (a b c : String) : a ++ b ++ c = a ++ (b ++ c) := by
  apply String.ext
  simp [data_append, List.append_assoc]

lemma prefixMatch_append_self (pat rest : List Char) :
    prefixMatch pat (pat ++ rest) = true := by
  induction pat with
  | nil => rfl
  | cons c cs ih => simp [prefixMatch, ih]

lemma subMatch_of_prefixMatch (pat l : List Char) (h : prefixMatch pat l = true) :
    subMatch pat l = true := by
  cases l with
  | nil => simpa [subMatch] using h
  | cons c cs => simp [subMatch, h]

lemma subMatch_append_left (pat a l : List Char) (h : subMatch pat l = true) :
    subMatch pat (a ++ l) = true := by
  induction a with
  | nil => simpa using h
  | cons c cs ih => simp [subMatch, ih]

/-- A string built around the pattern contains the pattern. -/
lemma containsStr_middle (a pat b : String) : containsStr (a ++ pat ++ b) pat = true := by
  show subMatch pat.data (a ++ pat ++ b).data = true
  have : (a ++ pat ++ b).data = a.data ++ (pat.data ++ b.data) := by
    simp [data_append, List.append_assoc]
  rw [this]
  exact subMatch_append_left _ _ _
    (subMatch_of_prefixMatch _ _ (prefixMatch_append_self pat.data b.data))

lemma dropWhile_dropWhile {α : Type} (p : α → Bool) (l : List α) :
    (l.dropWhile p).dropWhile p = l.dropWhile p := by
  induction l with
  | nil => rfl
  | cons c cs ih =>
    by_cases h : p c
    · simpa [List.dropWhile_cons_of_pos h] using ih
    · simp [List.dropWhile_cons_of_neg h, h]

lemma dropWhile_eq_self_of_head {α : Type} (p : α → Bool) (l : List α)
    (h : ∀ a ∈ l.head?, p a = false) : l.dropWhile p = l := by
  cases l with
  | nil => rfl
  | cons c cs =>
    have hc : p c = false := h c rfl
    simp [List.dropWhile_cons_of_neg, hc]

lemma getLast?_dropWhile_of_ne_nil {α : Type} (p : α → Bool) (l : List α)
    (h : l.dropWhile p ≠ []) : (l.dropWhile p).getLast? = l.getLast? := by
  obtain ⟨pre, hpre⟩ := List.dropWhile_suffix (l := l) p
  conv_rhs => rw [← hpre]
  rw [List.getLast?_append]
  cases hd : (l.dropWhile p).getLast? with
  | none => exact absurd (List.getLast?_eq_none_iff.mp hd) h
  | some a => rfl

lemma head_not_ws_of_trimChars (l : List Char) :
    ∀ a ∈ (trimChars l).head?, Char.isWhitespace a = false := by
  intro a ha
  rw [trimChars, List.head?_reverse] at ha
  by_cases hnil : (l.dropWhile Char.isWhitespace).reverse.dropWhile Char.isWhitespace = []
  · rw [hnil] at ha; simp at ha
  · rw [getLast?_dropWhile_of_ne_nil _ _ hnil, List.getLast?_reverse] at ha
    have := List.head?_dropWhile_not Char.isWhitespace l
    rw [ha] at this
    exact this

lemma trimChars_idem (l : List Char) : trimChars (trimChars l) = trimChars l := by
  have h1 : (trimChars l).dropWhile Char.isWhitespace = trimChars l :=
    dropWhile_eq_self_of_head _ _ (head_not_ws_of_trimChars l)
  show ((((trimChars l).dropWhile Char.isWhitespace).reverse).dropWhile
      Char.isWhitespace).reverse = trimChars l
  rw [h1, trimChars, List.reverse_reverse, dropWhile_dropWhile]

lemma trimStr_idem (s : String) : trimStr (trimStr s) = trimStr s := by
  apply String.ext
  show trimChars (trimStr s).data = (trimStr s).data
  show trimChars (trimChars s.data) = trimChars s.data
  exact trimChars_idem s.data

lemma trimStr_empty : trimStr "" = "" := rfl

lemma ne_empty_of_prefix (a b : String) (h : a.data ≠ []) : a ++ b ≠ "" := by
  intro hab
  apply h
  have hd : a.data ++ b.data = [] := by
    have := congrArg String.data hab
    simpa [data_append] using this
  exact (List.append_eq_nil.mp hd).1

lemma spawnErrMsg_ne_empty (e : SpawnErr) : spawnErrMsg e ≠ "" := by
  cases e with
  | spawnFailed m => exact ne_empty_of_prefix "Failed to spawn process: " m (by decide)
  | processError m => exact ne_empty_of_prefix "Process error: " m (by decide)

/-! ### Concrete inputs used by the witnesses and counterexamples -/

/-- A compile step that completed quickly and successfully. -/
def okCompile : ProcessOutput := ⟨some 0, "", "", 1⟩

/-- Run environment: clean build, artifact exits with the sentinel 124. -/
def wEnvC1 : RunEnv := ⟨.ok okCompile, .ok ⟨some 124, "", "watchdog", 2⟩⟩

/-- Run environment: clean build, artifact finishes instantly. -/
def wEnvC10 : RunEnv := ⟨.ok okCompile, .ok ⟨some 0, "done", "", 0⟩⟩

/-- Run environment used for the build-stage witness: the compiler takes
31 seconds. -/
def wEnvC5 : RunEnv := ⟨.ok ⟨some 0, "", "", 31⟩, .ok okCompile⟩

/-! ### C1: run-stage status mapping -/

/-- C1: for every run of the compiled artifact that completes within the
resolved time budget, the status of Execute is success if the process
exit status is success, timeout if the exit code equals the watchdog
sentinel 124, and error for any other non-zero exit; and if the outer
time budget elapses before the process completes, the status is timeout
with a message stating the timeout seconds. -/
theorem run_status_mapping (env : RunEnv) (t : Nat) (c : ProcessOutput)
    (hc : env.compileFut = .ok c) (hcd : c.duration < 30) (hcs : c.success = true)
    (out : ProcessOutput) (hr : env.runFut = .ok out) :
    (out.duration < (t : ℚ) →
      (out.exitCode = some 0 → (compile_and_run env t).2.2 = "success") ∧
      (out.exitCode = some 124 → (compile_and_run env t).2.2 = "timeout") ∧
      (out.exitCode ≠ some 0 → out.exitCode ≠ some 124 →
        (compile_and_run env t).2.2 = "error")) ∧
    ((t : ℚ) ≤ out.duration →
      (compile_and_run env t).2.2 = "timeout" ∧
      (compile_and_run env t).2.1 =
        "Code execution timed out after " ++ toString t ++ " seconds") := by
  have hrun : compile_and_run env t = runStage env.runFut t := by
    simp [compile_and_run, awaitTimeout, hc, hcd, hcs]
  constructor
  · intro hin
    refine ⟨?_, ?_, ?_⟩
    · intro h0
      simp [hrun, runStage, awaitTimeout, hr, hin, ProcessOutput.success, h0]
    · intro h124
      have hs : out.success = false := by
        simp [ProcessOutput.success, h124]
      simp [hrun, runStage, awaitTimeout, hr, hin, hs, h124]
    · intro h0 h124
      have hs : out.success = false := by
        simp [ProcessOutput.success, h0]
      simp [hrun, runStage, awaitTimeout, hr, hin, hs, h0, h124]
  · intro hle
    have hnin : ¬ out.duration < (t : ℚ) := not_lt.mpr hle
    constructor <;> simp [hrun, runStage, awaitTimeout, hr, hnin]

theorem run_status_mapping_witness :
    (compile_and_run wEnvC1 30).2.2 = "timeout" :=
  ((run_status_mapping wEnvC1 30 okCompile rfl (by norm_num [okCompile]) (by decide)
      ⟨some 124, "", "watchdog", 2⟩ rfl).1 (by norm_num)).2.1 rfl

/-! ### C3: timeout resolution -/

/-- C3: the resolved execution timeout equals the override whenever it
is present and lies in the interval from 0 exclusive to 60 inclusive,
and equals the configured default of 30 whenever the override is absent
or greater than 60. -/
theorem resolve_timeout_spec (o : Option Nat) :
    (∀ t, o = some t → 0 < t → t ≤ 60 → resolveTimeout RustExecutor.new o = t) ∧
    (o = none → resolveTimeout RustExecutor.new o = 30) ∧
    (∀ t, o = some t → 60 < t → resolveTimeout RustExecutor.new o = 30) := by
  refine ⟨?_, ?_, ?_⟩
  · rintro t rfl _ h60
    simp [resolveTimeout, h60]
  · rintro rfl
    rfl
  · rintro t rfl h60
    simp [resolveTimeout, Nat.not_le.mpr h60, RustExecutor.new]

theorem resolve_timeout_spec_witness :
    resolveTimeout RustExecutor.new (some 45) = 45 ∧
    resolveTimeout RustExecutor.new none = 30 ∧
    resolveTimeout RustExecutor.new (some 61) = 30 :=
  ⟨(resolve_timeout_spec (some 45)).1 45 rfl (by decide) (by decide),
   (resolve_timeout_spec none).2.1 rfl,
   (resolve_timeout_spec (some 61)).2.2 61 rfl (by decide)⟩

/-! ### C5: build stage -/

/-- C5: the build stage always runs under a fixed 30-second budget
independent of the resolved run timeout (the three failure equations
below hold for every t and their right-hand sides do not mention t):
a compiler launch failure yields status error with a message identifying
the launch failure; exceeding the 30-second budget yields status error
with the message Compilation timed out; a non-zero compiler exit yields
status error with a message wrapping the compiler diagnostic text
verbatim; and only a zero compiler exit proceeds to the run stage. -/
theorem build_stage_outcomes (env : RunEnv) (t : Nat) :
    (∀ e, env.compileFut = .error e →
      compile_and_run env t = ("", "Failed to execute cargo build: " ++ e, "error")) ∧
    (∀ c, env.compileFut = .ok c → (30 : ℚ) ≤ c.duration →
      compile_and_run env t = ("", "Compilation timed out", "error")) ∧
    (∀ c, env.compileFut = .ok c → c.duration < 30 → c.success = false →
      compile_and_run env t = ("", "Compilation error: " ++ c.stderr, "error")) ∧
    (∀ c, env.compileFut = .ok c → c.duration < 30 → c.success = true →
      compile_and_run env t = runStage env.runFut t) := by
  refine ⟨?_, ?_, ?_, ?_⟩
  · intro e he
    simp [compile_and_run, awaitTimeout, he]
  · intro c hc hd
    simp [compile_and_run, awaitTimeout, hc, not_lt.mpr hd]
  · intro c hc hd hs
    simp [compile_and_run, awaitTimeout, hc, hd, hs]
  · intro c hc hd hs
    simp [compile_and_run, awaitTimeout, hc, hd, hs]

theorem build_stage_outcomes_witness :
    compile_and_run wEnvC5 1 = ("", "Compilation timed out", "error") ∧
    compile_and_run wEnvC5 59 = ("", "Compilation timed out", "error") :=
  ⟨(build_stage_outcomes wEnvC5 1).2.1 ⟨some 0, "", "", 31⟩ rfl (by norm_num),
   (build_stage_outcomes wEnvC5 59).2.1 ⟨some 0, "", "", 31⟩ rfl (by norm_num)⟩

/-! ### C10: override of zero -/

/-- C10: a present timeoutOverride of 0 resolves to an execution timeout
of 0 seconds, so the outer time budget of the run stage is zero and
every artifact run is reported as a timeout. -/
theorem zero_override_times_out (env : RunEnv) (c : ProcessOutput)
    (hc : env.compileFut = .ok c) (hcd : c.duration < 30) (hcs : c.success = true)
    (out : ProcessOutput) (hr : env.runFut = .ok out) (hd : 0 ≤ out.duration) :
    resolveTimeout RustExecutor.new (some 0) = 0 ∧
    compile_and_run env (resolveTimeout RustExecutor.new (some 0)) =
      ("", "Code execution timed out after 0 seconds", "timeout") := by
  refine ⟨rfl, ?_⟩
  have hnin : ¬ out.duration < (0 : ℚ) := not_lt.mpr hd
  show compile_and_run env 0 = _
  simp [compile_and_run, awaitTimeout, hc, hcd, hcs, runStage, hr, hnin]
  rfl

theorem zero_override_times_out_witness :
    compile_and_run wEnvC10 (resolveTimeout RustExecutor.new (some 0)) =
      ("", "Code execution timed out after 0 seconds", "timeout") :=
  (zero_override_times_out wEnvC10 okCompile rfl (by norm_num [okCompile]) (by decide)
    ⟨some 0, "done", "", 0⟩ rfl (by norm_num)).2

/-! ### C2: harness templating -/

/-- The part of harnessPre before the Duration::from_secs call. -/
def harnessPreHead : String :=
  "fn main() \x7b\n    // Set execution timeout\n    let start_time = Instant::now();\n    let timeout = "

/-- harnessMid without its leading closing parenthesis. -/
def harnessMidTail : String :=
  ";\n    \n    // Spawn timeout checker\n    let timeout_checker = thread::spawn(move || \x7b\n        thread::sleep(timeout);\n        eprintln!(\"TIMEOUT: Code execution exceeded time limit\");\n        std::process::exit(124);\n    \x7d);\n    \n    // User code wrapper\n    let result = std::panic::catch_unwind(|| \x7b\n        // User code starts here\n"

/-- C2: a snippet containing the entry-point marker is only prefixed
with standard-library imports and left unmodified, with no watchdog
injected; a snippet without the marker is embedded inside a generated
entry point whose watchdog sleeps for the resolved timeout seconds and
exits the whole process with the sentinel code 124, and whose panic
boundary converts an abrupt abort into a captured error message plus
exit code 1. -/
theorem harness_templater_branches (code : String) (t : Nat) :
    (containsStr code "fn main()" = true →
      create_restricted_code code t = execHeader ++ code ∧
      onlyStdImports execHeader = true ∧
      containsStr execHeader "thread::spawn" = false ∧
      containsStr execHeader "std::process::exit(124)" = false ∧
      containsStr execHeader "catch_unwind" = false) ∧
    (containsStr code "fn main()" = false →
      create_restricted_code code t =
        execHeader ++ harnessPre ++ toString t ++ harnessMid ++ code ++ harnessSuf ∧
      containsStr (harnessPre ++ (toString t ++ harnessMid))
        ("Duration::from_secs(" ++ toString t ++ ")") = true ∧
      containsStr harnessMid "thread::spawn(move ||" = true ∧
      containsStr harnessMid "thread::sleep(timeout)" = true ∧
      containsStr harnessMid "std::process::exit(124);" = true ∧
      containsStr harnessMid "std::panic::catch_unwind" = true ∧
      containsStr harnessSuf "std::process::exit(1);" = true ∧
      containsStr harnessSuf "eprintln!(\"Error: panic occurred\");" = true) := by
  constructor
  · intro h
    refine ⟨?_, by decide, by decide, by decide, by decide⟩
    simp [create_restricted_code, h]
  · intro h
    refine ⟨?_, ?_, by decide, by decide, by decide, by decide, by decide, by decide⟩
    · simp [create_restricted_code, h]
    · have hsplit : harnessPre ++ (toString t ++ harnessMid) =
          harnessPreHead ++ ("Duration::from_secs(" ++ toString t ++ ")") ++
            harnessMidTail := by
        apply String.ext
        have hP : harnessPre = harnessPreHead ++ "Duration::from_secs(" := by decide
        have hM : harnessMid = ")" ++ harnessMidTail := by decide
        rw [hP, hM]
        simp [data_append, List.append_assoc]
      rw [hsplit]
      exact containsStr_middle _ _ _

theorem harness_templater_branches_witness :
    create_restricted_code "fn main() \x7b \x7d" 7 =
      execHeader ++ "fn main() \x7b \x7d" ∧
    create_restricted_code "let x = 1;" 7 =
      execHeader ++ harnessPre ++ toString 7 ++ harnessMid ++ "let x = 1;" ++ harnessSuf ∧
    containsStr (harnessPre ++ (toString 7 ++ harnessMid))
      ("Duration::from_secs(" ++ toString 7 ++ ")") = true :=
  ⟨((harness_templater_branches "fn main() \x7b \x7d" 7).1 (by decide)).1,
   ((harness_templater_branches "let x = 1;" 7).2 (by decide)).1,
   ((harness_templater_branches "let x = 1;" 7).2 (by decide)).2.1⟩

/-! ### C9: validation wrapping versus execution wrapping -/

/-- C9 counterexample: on a bare snippet the validation unit is not the
execution bare-snippet harness with only the watchdog and
failure-boundary generation removed: the import headers differ. -/
theorem validation_unit_counterexample :
    validationUnit "let x = 1;" ≠ execHarnessSansWatchdog "let x = 1;" := by
  decide

/-- C9 amended: the validation stage mirrors the branching of the
execution templater - a snippet with the entry-point marker is only
prefixed with imports, a bare snippet is embedded in a plain generated
entry point with no watchdog and no failure boundary - but it uses its
own smaller import header, so the produced unit is not the execution
harness minus the watchdog and boundary. -/
theorem validation_unit_amended (code : String) :
    (containsStr code "fn main()" = true → validationUnit code = valHeader ++ code) ∧
    (containsStr code "fn main()" = false →
      validationUnit code = valHeader ++ valMainOpen ++ code ++ valMainClose ∧
      onlyStdImports valHeader = true ∧
      containsStr (valHeader ++ valMainOpen) "thread::spawn" = false ∧
      containsStr (valHeader ++ valMainOpen) "catch_unwind" = false ∧
      containsStr (valHeader ++ valMainOpen) "exit(124)" = false ∧
      containsStr valMainClose "thread::spawn" = false ∧
      containsStr valMainClose "catch_unwind" = false ∧
      containsStr valMainClose "exit(124)" = false ∧
      valHeader ≠ execHeader) := by
  constructor
  · intro h
    simp [validationUnit, h]
  · intro h
    refine ⟨?_, by decide, by decide, by decide, by decide, by decide, by decide,
      by decide, by decide⟩
    simp [validationUnit, h]

theorem validation_unit_amended_witness :
    validationUnit "fn main() \x7b \x7d" = valHeader ++ "fn main() \x7b \x7d" ∧
    validationUnit "let y = 2;" = valHeader ++ valMainOpen ++ "let y = 2;" ++ valMainClose :=
  ⟨(validation_unit_amended "fn main() \x7b \x7d").1 (by decide),
   ((validation_unit_amended "let y = 2;").2 (by decide)).1⟩

/-! ### C4: size guard -/

/-- C4: a snippet whose size in kilobytes exceeds the configured ceiling
makes Execute return status error with a message naming both the actual
and the allowed size, elapsedSeconds 0, and no Workspace is ever
created. -/
theorem size_guard_short_circuit (ex : RustExecutor) (code : String)
    (inp : Option String) (o : Option Nat) (env : ExecEnv)
    (h : codeSizeKB code > (ex.max_code_size_kb : ℚ)) :
    (execute_code ex code inp o env).response.status = "error" ∧
    (execute_code ex code inp o env).response.error =
      "Code size (" ++ fmtSizeKB code.utf8ByteSize ++
        "KB) exceeds maximum allowed size (" ++ toString ex.max_code_size_kb ++ "KB)" ∧
    (execute_code ex code inp o env).response.execution_time = 0 ∧
    (execute_code ex code inp o env).workspaceCreated = false := by
  refine ⟨?_, ?_, ?_, ?_⟩ <;> simp [execute_code, h]

/-- An oversize snippet: 51201 bytes, exceeding the 50KB ceiling. -/
def bigCode : String := ⟨List.replicate 51201 'a'⟩

lemma utf8ByteSize_go_replicate (n : Nat) :
    String.utf8ByteSize.go (List.replicate n 'a') = n := by
  induction n with
  | zero => rfl
  | succ m ih =>
    show String.utf8ByteSize.go ('a' :: List.replicate m 'a') = m + 1
    show String.utf8ByteSize.go (List.replicate m 'a') + Char.utf8Size 'a' = m + 1
    rw [ih]
    rfl

lemma bigCode_size : bigCode.utf8ByteSize = 51201 :=
  utf8ByteSize_go_replicate 51201

theorem size_guard_short_circuit_witness :
    codeSizeKB bigCode > ((RustExecutor.new).max_code_size_kb : ℚ) ∧
    (execute_code RustExecutor.new bigCode none none
      ⟨.ok (), .ok (), .ok (), .ok (), ⟨.ok okCompile, .ok okCompile⟩, 2⟩).response.status =
      "error" ∧
    (execute_code RustExecutor.new bigCode none none
      ⟨.ok (), .ok (), .ok (), .ok (), ⟨.ok okCompile, .ok okCompile⟩, 2⟩).workspaceCreated =
      false := by
  have hbig : codeSizeKB bigCode > ((RustExecutor.new).max_code_size_kb : ℚ) := by
    rw [codeSizeKB, bigCode_size]
    norm_num [RustExecutor.new]
  exact ⟨hbig,
    (size_guard_short_circuit RustExecutor.new bigCode none none
      ⟨.ok (), .ok (), .ok (), .ok (), ⟨.ok okCompile, .ok okCompile⟩, 2⟩ hbig).1,
    (size_guard_short_circuit RustExecutor.new bigCode none none
      ⟨.ok (), .ok (), .ok (), .ok (), ⟨.ok okCompile, .ok okCompile⟩, 2⟩ hbig).2.2.2⟩

/-! ### C6: validation compile-check -/

/-- C6: when a validation request reaches the compile-check and the
check runs to completion, isValid is true exactly when the check exits
successfully, in which case errors is empty; otherwise isValid is false
and the raw compiler diagnostic text is the errors list. -/
theorem validate_compile_check (env : ValidateEnv) (code : String)
    (h1 : env.tempDir = .ok ()) (h2 : env.srcDir = .ok ())
    (h3 : env.cargoToml = .ok ()) (h4 : env.mainRs = .ok ())
    (out : ProcessOutput) (hc : env.check = .ok out) (hd : out.duration < 10) :
    (validate_syntax_check env code).is_valid = out.success ∧
    (out.success = true → validate_syntax_check env code = ⟨true, [], []⟩) ∧
    (out.success = false → validate_syntax_check env code = ⟨false, [out.stderr], []⟩) := by
  have hv : validate_syntax_check env code =
      (if out.success then ⟨true, [], []⟩ else ⟨false, [out.stderr], []⟩) := by
    simp [validate_syntax_check, h1, h2, h3, h4, awaitTimeout, hc, hd]
  refine ⟨?_, ?_, ?_⟩
  · cases hs : out.success <;> simp [hv, hs]
  · intro hs; simp [hv, hs]
  · intro hs; simp [hv, hs]

theorem validate_compile_check_witness :
    validate_syntax_check ⟨.ok (), .ok (), .ok (), .ok (),
        .ok ⟨some 101, "", "error: expected expression", 1⟩⟩ "let x = " =
      ⟨false, ["error: expected expression"], []⟩ :=
  (validate_compile_check _ "let x = " rfl rfl rfl rfl
    ⟨some 101, "", "error: expected expression", 1⟩ rfl (by norm_num)).2.2 (by decide)

/-! ### C7 and C8: returned text across outcomes -/

lemma append_data_ne (a b : String) (h : a.data ≠ []) : (a ++ b).data ≠ [] := by
  rw [data_append]
  intro hc
  exact h (List.append_eq_nil.mp hc).1

/-- The stdout field of compile_and_run is trimmed in every branch. -/
lemma compile_and_run_fst_trimmed (env : RunEnv) (t : Nat) :
    trimStr (compile_and_run env t).1 = (compile_and_run env t).1 := by
  obtain ⟨cf, rf⟩ := env
  cases cf with
  | error e => simp [compile_and_run, awaitTimeout, trimStr_empty]
  | ok c =>
    by_cases hd : c.duration < (30 : ℚ)
    · by_cases hs : c.success = true
      · cases rf with
        | error e =>
          simp [compile_and_run, awaitTimeout, hd, hs, runStage, trimStr_empty]
        | ok out =>
          by_cases hr : out.duration < (t : ℚ) <;>
            simp [compile_and_run, awaitTimeout, hd, hs, runStage, hr, trimStr_idem,
              trimStr_empty]
      · simp [compile_and_run, awaitTimeout, hd, hs, trimStr_empty]
    · simp [compile_and_run, awaitTimeout, hd, trimStr_empty]

/-- The output field of execute_code is trimmed in every branch. -/
lemma execute_code_output_trimmed (ex : RustExecutor) (code : String)
    (inp : Option String) (o : Option Nat) (env : ExecEnv) :
    trimStr (execute_code ex code inp o env).response.output =
      (execute_code ex code inp o env).response.output := by
  obtain ⟨td, sd, ct, mr, run, el⟩ := env
  by_cases h : codeSizeKB code > (ex.max_code_size_kb : ℚ)
  · simp [execute_code, h, trimStr_empty]
  · cases td <;> cases sd <;> cases ct <;> cases mr <;>
      simp [execute_code, h, trimStr_empty, compile_and_run_fst_trimmed]

/-- The stderr/message field of compile_and_run: in every branch it is
either a non-empty diagnostic message, or the run completed and it is
the trimmed captured stderr of the artifact. -/
lemma compile_and_run_error_field (env : RunEnv) (t : Nat) :
    (compile_and_run env t).2.1 ≠ "" ∨
    ∃ out, env.runFut = .ok out ∧ out.duration < (t : ℚ) ∧
      (compile_and_run env t).2.1 = trimStr out.stderr := by
  obtain ⟨cf, rf⟩ := env
  cases cf with
  | error e =>
    left
    have hv : (compile_and_run ⟨.error e, rf⟩ t).2.1 =
        "Failed to execute cargo build: " ++ e := by
      simp [compile_and_run, awaitTimeout]
    rw [hv]
    exact ne_empty_of_prefix _ _ (by decide)
  | ok c =>
    by_cases hd : c.duration < (30 : ℚ)
    · by_cases hs : c.success = true
      · have hcr : compile_and_run ⟨.ok c, rf⟩ t = runStage rf t := by
          simp [compile_and_run, awaitTimeout, hd, hs]
        rw [hcr]
        cases rf with
        | error e =>
          left
          have hv : (runStage (.error e) t).2.1 = spawnErrMsg e := by
            simp [runStage, awaitTimeout]
          rw [hv]
          exact spawnErrMsg_ne_empty e
        | ok out =>
          by_cases hr : out.duration < (t : ℚ)
          · right
            exact ⟨out, rfl, hr, by simp [runStage, awaitTimeout, hr]⟩
          · left
            have hv : (runStage (.ok out) t).2.1 =
                "Code execution timed out after " ++ toString t ++ " seconds" := by
              simp [runStage, awaitTimeout, hr]
            rw [hv]
            exact ne_empty_of_prefix _ _ (append_data_ne _ _ (by decide))
      · left
        have hv : (compile_and_run ⟨.ok c, rf⟩ t).2.1 =
            "Compilation error: " ++ c.stderr := by
          simp [compile_and_run, awaitTimeout, hd, hs]
        rw [hv]
        exact ne_empty_of_prefix _ _ (by decide)
    · left
      have hv : (compile_and_run ⟨.ok c, rf⟩ t).2.1 = "Compilation timed out" := by
        simp [compile_and_run, awaitTimeout, hd]
      rw [hv]
      decide

/-- Execution environment showing untrimmed wrapped compiler text:
the compiler exits non-zero with a diagnostic ending in a newline. -/
def wEnvC7 : ExecEnv :=
  ⟨.ok (), .ok (), .ok (), .ok (),
    ⟨.ok ⟨some 101, "", "error: expected expression\n", 1⟩, .ok okCompile⟩, 2⟩

/-- C7 counterexample: an Execute outcome (a compile error) whose
returned error field carries surrounding whitespace, against the claim
that the returned text never does. -/
theorem trim_claim_counterexample :
    (execute_code RustExecutor.new "let x = 1;" none none wEnvC7).response.status =
      "error" ∧
    trimStr (execute_code RustExecutor.new "let x = 1;" none none wEnvC7).response.error ≠
      (execute_code RustExecutor.new "let x = 1;" none none wEnvC7).response.error := by
  have hsize : ¬ codeSizeKB "let x = 1;" > ((RustExecutor.new).max_code_size_kb : ℚ) := by
    have h10 : ("let x = 1;" : String).utf8ByteSize = 10 := rfl
    rw [codeSizeKB, h10]
    norm_num [RustExecutor.new]
  have hresp : (execute_code RustExecutor.new "let x = 1;" none none wEnvC7).response.error =
      "Compilation error: error: expected expression\n" := by
    simp only [execute_code]
    rw [if_neg hsize]
    rfl
  have hstat : (execute_code RustExecutor.new "let x = 1;" none none wEnvC7).response.status =
      "error" := by
    simp only [execute_code]
    rw [if_neg hsize]
    rfl
  refine ⟨hstat, ?_⟩
  rw [hresp]
  decide

/-- C7 amended: the stdout field of Execute never carries surrounding
whitespace (captured text is trimmed, non-capturing outcomes return the
empty string); and when the artifact runs to completion both captured
streams are returned trimmed; but failure outcomes place a diagnostic
message in the stderr/error field, which can carry surrounding
whitespace wrapped verbatim from compiler text. -/
theorem trim_amended :
    (∀ ex code inp o env,
      trimStr (execute_code ex code inp o env).response.output =
        (execute_code ex code inp o env).response.output) ∧
    (∀ (fut : Except SpawnErr ProcessOutput) (t : Nat) (out : ProcessOutput),
      fut = Except.ok out → out.duration < (t : ℚ) →
      (runStage fut t).1 = trimStr out.stdout ∧
      (runStage fut t).2.1 = trimStr out.stderr ∧
      trimStr (runStage fut t).2.1 = (runStage fut t).2.1) := by
  constructor
  · exact execute_code_output_trimmed
  · rintro fut t out rfl hr
    refine ⟨?_, ?_, ?_⟩ <;> simp [runStage, awaitTimeout, hr, trimStr_idem]

theorem trim_amended_witness :
    trimStr (execute_code RustExecutor.new "let x = 1;" none none wEnvC7).response.output =
      (execute_code RustExecutor.new "let x = 1;" none none wEnvC7).response.output ∧
    (runStage (.ok ⟨some 0, " hi \n", " e ", 1⟩) 30).1 = trimStr " hi \n" :=
  ⟨trim_amended.1 RustExecutor.new "let x = 1;" none none wEnvC7,
   (trim_amended.2 (.ok ⟨some 0, " hi \n", " e ", 1⟩) 30 ⟨some 0, " hi \n", " e ", 1⟩
     rfl (by norm_num)).1⟩

/-- Execution environment of a clean build whose artifact exits 1 while
printing nothing to stderr. -/
def wEnvC8 : ExecEnv :=
  ⟨.ok (), .ok (), .ok (), .ok (),
    ⟨.ok okCompile, .ok ⟨some 1, "partial", "", 1⟩⟩, 2⟩

/-- C8 counterexample: an artifact that exits non-zero while printing
nothing to stderr yields status error with an EMPTY error field, against
the claim that every error or timeout outcome carries a non-empty
message. -/
theorem error_message_counterexample :
    (execute_code RustExecutor.new "let x = 1;" none none wEnvC8).response.status =
      "error" ∧
    (execute_code RustExecutor.new "let x = 1;" none none wEnvC8).response.error = "" := by
  have hsize : ¬ codeSizeKB "let x = 1;" > ((RustExecutor.new).max_code_size_kb : ℚ) := by
    have h10 : ("let x = 1;" : String).utf8ByteSize = 10 := rfl
    rw [codeSizeKB, h10]
    norm_num [RustExecutor.new]
  constructor <;> (simp only [execute_code]; rw [if_neg hsize]; rfl)

/-- C8 amended: every error or timeout outcome of Execute carries a
non-empty message, except those of a run that completed, which surface
the trimmed captured stderr of the artifact - possibly empty. -/
theorem error_message_amended (ex : RustExecutor) (code : String) (inp : Option String)
    (o : Option Nat) (env : ExecEnv)
    (hst : (execute_code ex code inp o env).response.status = "error" ∨
      (execute_code ex code inp o env).response.status = "timeout") :
    (execute_code ex code inp o env).response.error ≠ "" ∨
    ∃ out, env.run.runFut = .ok out ∧ out.duration < (resolveTimeout ex o : ℚ) ∧
      (execute_code ex code inp o env).response.error = trimStr out.stderr := by
  obtain ⟨td, sd, ct, mr, run, el⟩ := env
  by_cases h : codeSizeKB code > (ex.max_code_size_kb : ℚ)
  · left
    have hv : (execute_code ex code inp o ⟨td, sd, ct, mr, run, el⟩).response.error =
        "Code size (" ++ fmtSizeKB code.utf8ByteSize ++
          "KB) exceeds maximum allowed size (" ++ toString ex.max_code_size_kb ++
          "KB)" := by
      simp [execute_code, h]
    rw [hv]
    exact ne_empty_of_prefix _ _
      (append_data_ne _ _ (append_data_ne _ _ (append_data_ne _ _ (by decide))))
  · cases td with
    | error e =>
      left
      have hv : (execute_code ex code inp o ⟨.error e, sd, ct, mr, run, el⟩).response.error =
          "Failed to create temp directory: " ++ e := by
        simp [execute_code, h]
      rw [hv]
      exact ne_empty_of_prefix _ _ (by decide)
    | ok u =>
      cases sd with
      | error e =>
        left
        have hv : (execute_code ex code inp o
            ⟨.ok u, .error e, ct, mr, run, el⟩).response.error =
            "Failed to create src directory: " ++ e := by
          simp [execute_code, h]
        rw [hv]
        exact ne_empty_of_prefix _ _ (by decide)
      | ok v =>
        cases ct with
        | error e =>
          left
          have hv : (execute_code ex code inp o
              ⟨.ok u, .ok v, .error e, mr, run, el⟩).response.error =
              "Failed to create Cargo.toml: " ++ e := by
            simp [execute_code, h]
          rw [hv]
          exact ne_empty_of_prefix _ _ (by decide)
        | ok w =>
          cases mr with
          | error e =>
            left
            have hv : (execute_code ex code inp o
                ⟨.ok u, .ok v, .ok w, .error e, run, el⟩).response.error =
                "Failed to write main.rs: " ++ e := by
              simp [execute_code, h]
            rw [hv]
            exact ne_empty_of_prefix _ _ (by decide)
          | ok x =>
            have hv : (execute_code ex code inp o
                ⟨.ok u, .ok v, .ok w, .ok x, run, el⟩).response.error =
                (compile_and_run run (resolveTimeout ex o)).2.1 := by
              simp [execute_code, h]
            rw [hv]
            rcases compile_and_run_error_field run (resolveTimeout ex o) with
              hne | ⟨out, ho, hdur, heq⟩
            · exact Or.inl hne
            · exact Or.inr ⟨out, ho, hdur, heq⟩

/-- Execution environment whose compiler run takes 31 seconds. -/
def wEnvC8b : ExecEnv :=
  ⟨.ok (), .ok (), .ok (), .ok (), ⟨.ok ⟨some 0, "", "", 31⟩, .ok okCompile⟩, 2⟩

theorem error_message_amended_witness :
    (execute_code RustExecutor.new "let x = 1;" none none wEnvC8b).response.error ≠ "" ∨
    ∃ out, wEnvC8b.run.runFut = .ok out ∧
      out.duration < (resolveTimeout RustExecutor.new none : ℚ) ∧
      (execute_code RustExecutor.new "let x = 1;" none none wEnvC8b).response.error =
        trimStr out.stderr :=
  error_message_amended RustExecutor.new "let x = 1;" none none wEnvC8b
    (Or.inl (by
      have hsize : ¬ codeSizeKB "let x = 1;" > ((RustExecutor.new).max_code_size_kb : ℚ) := by
        have h10 : ("let x = 1;" : String).utf8ByteSize = 10 := rfl
        rw [codeSizeKB, h10]
        norm_num [RustExecutor.new]
      simp only [execute_code]
      rw [if_neg hsize]
      rfl))
